import Mathlib

/-!
Verification of the Mental Health Assistant chat core (`src/app.py`,
`src/helpers.py`).

The development shallowly embeds the logic-bearing parts of `app.py`:

* the message store (a list of role/content records, as the Python code
  keeps in `st.session_state.messages`),
* the crisis keyword matcher `contains_crisis_keywords`,
* the fixed crisis reply `handle_crisis_response`,
* the history trimming `trim_messages_for_tokens`,
* the provider wrapper `get_ai_response` (the provider call is modelled as
  a function from the submitted history to an optional structured
  response; `none` models a raised exception),
* the per-turn chat flow of `main` (`handle_turn` below), and
* the "Clear conversation" action (`clear_conversation` below).

Python strings are modelled as Lean `String`; `str.lower()` is modelled as
mapping `Char.toLower` over the characters, and the Python substring test
`k in s` is the executable `has_sub` below.  `get_ai_response` cannot
raise in the embedding (it is a total function into `String × Nat`); the
second component instruments how many times `client.chat.completions.create`
was invoked, which the Python code calls at exactly one site.
-/

/-- One entry of `st.session_state.messages`: a dict
`{"role": ..., "content": ...}`. -/
structure Message where
  role : String
  content : String
deriving DecidableEq

/-- `m.get("role") == "system"`. -/
def is_system (m : Message) : Bool := m.role == "system"

/-- The `[app]` table of the configuration (`DEFAULT_CONFIG["app"]` merged
with `config.toml`); only the fields the embedded logic reads. -/
structure AppConfig where
  warning_message : String
  crisis_hotline : String
  crisis_text : String

/-- `DEFAULT_CONFIG["app"]` of `app.py`. -/
def default_app_config : AppConfig where
  warning_message := "This is not a substitute for professional care."
  crisis_hotline := "Local crisis hotline (replace in config)"
  crisis_text := "Text HELP to 741741 (replace per country)"

/-- Does `needle` occur as a prefix of `hay`?  Executable counterpart of
Python string comparison at one position. -/
def starts_with : List Char → List Char → Bool
  | [], _ => true
  | _ :: _, [] => false
  | a :: n, b :: h => a == b && starts_with n h

/-- Python's substring test `needle in hay` on the character lists. -/
def has_sub (needle : List Char) : List Char → Bool
  | [] => starts_with needle []
  | b :: h => starts_with needle (b :: h) || has_sub needle h

/-- Python `s.lower()`: lowercase every character. -/
def str_lower (s : String) : List Char := s.data.map Char.toLower

/-- `CRISIS_KEYWORDS` of `app.py`, verbatim. -/
def CRISIS_KEYWORDS : List String :=
  ["kill myself", "suicide", "end it all", "want to die",
   "harm myself", "self harm", "hurt myself", "not want to live",
   "i\x27m going to kill myself", "i want to die", "suicidal"]

/-- `contains_crisis_keywords(text)`:
`text_lower = (text or "").lower(); return any(k in text_lower for k in CRISIS_KEYWORDS)`.
`none` models Python `None`; `(text or "")` maps both `None` and `""` to `""`. -/
def contains_crisis_keywords (text : Option String) : Bool :=
  let text_lower := str_lower (text.getD "")
  CRISIS_KEYWORDS.any (fun k => has_sub k.data text_lower)

/-- `handle_crisis_response()`: the fixed, template-filled safety reply. -/
def handle_crisis_response (cfg : AppConfig) : String :=
  "I hear that you\x27re in a lot of pain, and I\x27m very concerned about your safety.\n\n" ++
  "**Please reach out for immediate help:**\n" ++
  "- **Crisis Hotline:** " ++ cfg.crisis_hotline ++ "\n" ++
  "- **Crisis Text Line:** " ++ cfg.crisis_text ++ "\n" ++
  "- **Emergency Services:** Call your local emergency number now if you are in immediate danger.\n\n" ++
  "You don\x27t have to go through this alone — please contact someone who can help right now."

/-- The system prompt built in `initialize_session_state()`. -/
def system_prompt (cfg : AppConfig) : String :=
  "You are a helpful, empathetic mental health information assistant.\n\n" ++
  "ROLE:\n" ++
  "- Provide general psychoeducation and supportive, validating responses.\n" ++
  "- Offer evidence-based coping strategies and brief self-help suggestions.\n\n" ++
  "CRITICAL SAFETY RULES:\n" ++
  "- You are NOT a licensed therapist or crisis counselor.\n" ++
  "- Do NOT provide diagnoses or long treatment plans.\n" ++
  "- If user mentions self-harm/suicide/imminent danger, acknowledge, provide crisis resources, " ++
  "encourage contacting emergency services, and keep the response brief and safety-focused.\n\n" ++
  "Include this disclaimer in your first assistant message: \"" ++ cfg.warning_message ++ "\""

/-- The store seeded by `initialize_session_state()`. -/
def initial_messages (cfg : AppConfig) : List Message :=
  [⟨"system", system_prompt cfg⟩,
   ⟨"assistant",
    "Hello — I\x27m here to provide general mental health information and support. " ++
    cfg.warning_message ++ " How can I help you today?"⟩]

/-- `trim_messages_for_tokens(messages, max_exchanges)`.  The Python slice
`others[-max_exchanges:]` is the whole list when `max_exchanges == 0` and
the last `max_exchanges` entries otherwise. -/
def trim_messages_for_tokens (messages : List Message) (max_exchanges : Nat := 6) :
    List Message :=
  match messages with
  | [] => []
  | _ :: _ =>
    let system := messages.filter is_system
    let others := messages.filter (fun m => !(is_system m))
    let keep := if max_exchanges = 0 then others else others.drop (others.length - max_exchanges)
    system ++ keep

/-- `trim_messages_for_tokens` is the spec's `snapshot_for_submission`: a
read of the store.  The Python body performs only non-mutating list
operations (two comprehensions, a slice, a concatenation), so the embedding
as an explicit state transformer returns the snapshot together with the
store it leaves behind. -/
def snapshot_for_submission (store : List Message) (max_turns : Nat) :
    List Message × List Message :=
  (trim_messages_for_tokens store max_turns, store)

/-- One `choice` of the provider response.  `hasattr(choice, "message")`
being false, `choice.message.content` being `None`, and a missing `content`
attribute all behave as `message_content = none`; likewise for `text`. -/
structure Choice where
  message_content : Option String
  text : Option String
deriving DecidableEq

/-- The object returned by `client.chat.completions.create`; `asString`
models `str(resp)`. -/
structure Resp where
  choices : List Choice
  asString : String
deriving DecidableEq

/-- Python truthiness of `getattr(..., ..., None)` on a string attribute:
`None` and `""` are falsy. -/
def truthy (o : Option String) : Bool :=
  match o with
  | none => false
  | some s => !(s == "")

/-- Lines 213-223 of `app.py`: extract the assistant text from the
response, falling back to `str(resp)`. -/
def extract_text (resp : Resp) : String :=
  match resp.choices with
  | [] => resp.asString
  | choice :: _ =>
    if truthy choice.message_content then choice.message_content.getD ""
    else if truthy choice.text then choice.text.getD ""
    else resp.asString

/-- The provider boundary: the submitted history to an optional response;
`none` models the call raising an exception. -/
def Client : Type := List Message → Option Resp

/-- `get_ai_response(messages)` with the constructed client passed
explicitly (`none` models `get_openai_client()` returning `None`).  The
second component counts invocations of `client.chat.completions.create`;
the function is total, so no failure propagates past this boundary. -/
def get_ai_response (client : Option Client) (messages : List Message) :
    String × Nat :=
  match client with
  | none =>
    ("AI unavailable: no OpenAI API key configured. Provide one in the sidebar or set it as a secret.", 0)
  | some complete =>
    let messages_to_send := trim_messages_for_tokens messages 6
    match complete messages_to_send with
    | none => ("I\x27m having trouble responding right now. Please try again later.", 1)
    | some resp => (extract_text resp, 1)

/-- One chat turn of `main` (lines 289-307 of `app.py`): `st.chat_input`
yields a falsy value (modelled `""`) or the user's text; a truthy prompt is
appended, then either the crisis branch or the provider branch appends the
assistant reply.  The second component counts provider invocations. -/
def handle_turn (cfg : AppConfig) (client : Option Client)
    (store : List Message) (user_prompt : String) : List Message × Nat :=
  if user_prompt == "" then (store, 0)
  else
    let store1 := store ++ [⟨"user", user_prompt⟩]
    if contains_crisis_keywords (some user_prompt) then
      (store1 ++ [⟨"assistant", handle_crisis_response cfg⟩], 0)
    else
      let r := get_ai_response client store1
      (store1 ++ [⟨"assistant", r.1⟩], r.2)

/-- The greeting appended by the "Clear conversation" action. -/
def cleared_greeting (cfg : AppConfig) : Message :=
  ⟨"assistant", "Conversation cleared. " ++ cfg.warning_message ++ " How can I help you?"⟩

/-- The "Clear conversation" action (lines 264-273 of `app.py`):
`next((m for m in messages if m.get("role") == "system"), None)`, then
`[sys_msg] if sys_msg else []` with the greeting appended. -/
def clear_conversation (cfg : AppConfig) (messages : List Message) : List Message :=
  let sys_msg := messages.find? is_system
  (match sys_msg with
   | some m => [m]
   | none => []) ++ [cleared_greeting cfg]

/-! ### Supporting lemmas -/

/-- `starts_with` decides list-prefix. -/
theorem starts_with_iff (n : List Char) : ∀ h : List Char, starts_with n h = true ↔ n <+: h := by
  induction n with
  | nil =>
    intro h
    constructor
    · intro _
      exact ⟨h, rfl⟩
    · intro _
      rfl
  | cons a n ih =>
    intro h
    cases h with
    | nil =>
      constructor
      · intro hs
        simp [starts_with] at hs
      · rintro ⟨t, ht⟩
        simp at ht
    | cons b h =>
      constructor
      · intro hs
        simp only [starts_with, Bool.and_eq_true, beq_iff_eq] at hs
        obtain ⟨rfl, hs2⟩ := hs
        obtain ⟨t, rfl⟩ := (ih h).mp hs2
        exact ⟨t, rfl⟩
      · rintro ⟨t, ht⟩
        simp only [List.cons_append, List.cons.injEq] at ht
        obtain ⟨rfl, ht2⟩ := ht
        have hsw : starts_with n h = true := (ih h).mpr ⟨t, ht2⟩
        simp [starts_with, hsw]

/-- `has_sub` decides Python's substring relation (contiguous sublist). -/
theorem has_sub_iff (n : List Char) : ∀ h : List Char, has_sub n h = true ↔ n <:+: h := by
  intro h
  induction h with
  | nil =>
    simp only [has_sub]
    rw [starts_with_iff]
    constructor
    · rintro ⟨t, ht⟩
      exact ⟨[], t, by simpa using ht⟩
    · rintro ⟨s, t, hst⟩
      simp only [List.append_eq_nil] at hst
      obtain ⟨⟨rfl, rfl⟩, rfl⟩ := hst
      exact ⟨[], rfl⟩
  | cons b h ih =>
    simp only [has_sub, Bool.or_eq_true]
    rw [starts_with_iff, ih]
    constructor
    · rintro (⟨t, ht⟩ | ⟨s, t, hst⟩)
      · exact ⟨[], t, by simpa using ht⟩
      · exact ⟨b :: s, t, by simp [hst]⟩
    · rintro ⟨s, t, hst⟩
      cases s with
      | nil =>
        left
        exact ⟨t, by simpa using hst⟩
      | cons c s =>
        right
        simp only [List.cons_append, List.cons.injEq] at hst
        exact ⟨s, t, hst.2⟩

/-- The crisis matcher is substring containment of some keyword in the
lowercased text. -/
theorem contains_crisis_iff (t : String) :
    contains_crisis_keywords (some t) = true ↔
      ∃ k ∈ CRISIS_KEYWORDS, k.data <:+: str_lower t := by
  simp only [contains_crisis_keywords, Option.getD_some, List.any_eq_true, has_sub_iff]

/-- A contiguous sublist survives surrounding context. -/
theorem sub_extend {k m : List Char} (u v : List Char) (hk : k <:+: m) :
    k <:+: u ++ m ++ v := by
  obtain ⟨s, t, rfl⟩ := hk
  exact ⟨u ++ s, t ++ v, by simp⟩

/-- Unfolding of `trim_messages_for_tokens` on a non-empty store with a
positive window. -/
theorem trim_eq_of_ne_nil (messages : List Message) (n : Nat)
    (hne : messages ≠ []) (hn : n ≠ 0) :
    trim_messages_for_tokens messages n =
      messages.filter is_system ++
        (messages.filter (fun m => !(is_system m))).drop
          ((messages.filter (fun m => !(is_system m))).length - n) := by
  cases messages with
  | nil => exact absurd rfl hne
  | cons a l => simp [trim_messages_for_tokens, hn]

/-! ### Claim theorems -/

/-- C6: the crisis matcher applied to the empty string or to `None` returns
`false`; being a total Lean function it cannot raise. -/
theorem crisis_matcher_empty_and_none_false :
    contains_crisis_keywords (some "") = false ∧ contains_crisis_keywords none = false := by
  decide

/-- C7: building the submission snapshot leaves the store unchanged: the
state after the read equals the state before, and the returned snapshot is
exactly `trim_messages_for_tokens`. -/
theorem snapshot_does_not_mutate_store :
    ∀ (store : List Message) (max_turns : Nat),
      (snapshot_for_submission store max_turns).2 = store ∧
        (snapshot_for_submission store max_turns).1 =
          trim_messages_for_tokens store max_turns :=
  fun _ _ => ⟨rfl, rfl⟩

/-- C8: crisis matching is plain substring containment of some keyword in
the lowercased text, with no negation handling: in particular the negated
sentence "I do not want to kill myself" still matches. -/
theorem crisis_match_is_substring_containment :
    contains_crisis_keywords (some "I do not want to kill myself") = true ∧
      ∀ t : String, contains_crisis_keywords (some t) = true ↔
        ∃ k ∈ CRISIS_KEYWORDS, k.data <:+: str_lower t :=
  ⟨by decide, contains_crisis_iff⟩

/-- C10: the crisis matcher is monotone under context extension: a match on
`t` is still a match on `u ++ t ++ v`. -/
theorem crisis_match_monotone_under_extension (t u v : String)
    (h : contains_crisis_keywords (some t) = true) :
    contains_crisis_keywords (some (u ++ t ++ v)) = true := by
  rw [contains_crisis_iff] at h ⊢
  obtain ⟨k, hk, hsub⟩ := h
  refine ⟨k, hk, ?_⟩
  have hl : str_lower (u ++ t ++ v) = str_lower u ++ str_lower t ++ str_lower v := by
    simp only [str_lower]
    have hd : (u ++ t ++ v).data = u.data ++ t.data ++ v.data := rfl
    rw [hd, List.map_append, List.map_append]
  rw [hl]
  exact sub_extend _ _ hsub

/-- Witness for C10 at `t = "suicide"`, `u = "please no "`, `v = " today"`. -/
theorem crisis_match_monotone_under_extension_witness :
    contains_crisis_keywords (some "suicide") = true ∧
      contains_crisis_keywords (some ("please no " ++ "suicide" ++ " today")) = true :=
  ⟨by decide,
   crisis_match_monotone_under_extension "suicide" "please no " " today" (by decide)⟩

/-- C1: a turn whose text matches the crisis keywords appends the user
message and the fixed crisis reply, and the provider call count of the turn
is `0` whatever client is configured. -/
theorem crisis_turn_bypasses_provider (cfg : AppConfig) (client : Option Client)
    (store : List Message) (text : String)
    (h : contains_crisis_keywords (some text) = true) :
    handle_turn cfg client store text =
      (store ++ [⟨"user", text⟩, ⟨"assistant", handle_crisis_response cfg⟩], 0) := by
  have hne : (text == "") = false := by
    cases hb : text == ""
    · rfl
    · rw [beq_iff_eq] at hb
      subst hb
      exact absurd h (by decide)
  simp [handle_turn, hne, h]

/-- Witness for C1 at the input "suicide" with a client configured. -/
theorem crisis_turn_bypasses_provider_witness :
    contains_crisis_keywords (some "suicide") = true ∧
      handle_turn default_app_config (some (fun _ => none)) [] "suicide" =
        ([⟨"user", "suicide"⟩,
          ⟨"assistant", handle_crisis_response default_app_config⟩], 0) :=
  ⟨by decide,
   crisis_turn_bypasses_provider default_app_config (some (fun _ => none)) [] "suicide"
     (by decide)⟩

/-- C2: on a store with at most one system message (at any position) the
6-turn submission snapshot is the system message (when present) followed by
the last 6 non-system messages in original relative order; fewer than 6
non-system messages are returned whole; 1 system + 20 non-system messages
yield exactly 7 messages. -/
theorem snapshot_keeps_system_and_last_six (l₁ : List Message) (s : Message)
    (l₂ : List Message) (hs : is_system s = true)
    (ho : ∀ m ∈ l₁ ++ l₂, is_system m = false) :
    trim_messages_for_tokens (l₁ ++ s :: l₂) 6 =
        s :: (l₁ ++ l₂).drop ((l₁ ++ l₂).length - 6) ∧
      ((l₁ ++ l₂).length ≤ 6 →
        trim_messages_for_tokens (l₁ ++ s :: l₂) 6 = s :: (l₁ ++ l₂)) ∧
      ((l₁ ++ l₂).length = 20 →
        (trim_messages_for_tokens (l₁ ++ s :: l₂) 6).length = 7) ∧
      ∀ ns : List Message, (∀ m ∈ ns, is_system m = false) →
        trim_messages_for_tokens ns 6 = ns.drop (ns.length - 6) := by
  have h1 : l₁.filter is_system = [] := by
    rw [List.filter_eq_nil_iff]
    intro m hm
    simp [ho m (List.mem_append.mpr (Or.inl hm))]
  have h2 : l₂.filter is_system = [] := by
    rw [List.filter_eq_nil_iff]
    intro m hm
    simp [ho m (List.mem_append.mpr (Or.inr hm))]
  have h3 : l₁.filter (fun m => !(is_system m)) = l₁ := by
    rw [List.filter_eq_self]
    intro m hm
    simp [ho m (List.mem_append.mpr (Or.inl hm))]
  have h4 : l₂.filter (fun m => !(is_system m)) = l₂ := by
    rw [List.filter_eq_self]
    intro m hm
    simp [ho m (List.mem_append.mpr (Or.inr hm))]
  have hmain : trim_messages_for_tokens (l₁ ++ s :: l₂) 6 =
      s :: (l₁ ++ l₂).drop ((l₁ ++ l₂).length - 6) := by
    rw [trim_eq_of_ne_nil _ 6 (by simp) (by decide)]
    rw [List.filter_append, List.filter_append, List.filter_cons, List.filter_cons,
      h1, h2, h3, h4, hs]
    simp
  refine ⟨hmain, ?_, ?_, ?_⟩
  · intro hle
    rw [hmain, Nat.sub_eq_zero_of_le hle, List.drop_zero]
  · intro h20
    rw [hmain]
    simp [List.length_drop, h20]
  · intro ns hns
    by_cases hns0 : ns = []
    · subst hns0
      simp [trim_messages_for_tokens]
    · rw [trim_eq_of_ne_nil _ 6 hns0 (by decide)]
      have hn1 : ns.filter is_system = [] := by
        rw [List.filter_eq_nil_iff]
        intro m hm
        simp [hns m hm]
      have hn2 : ns.filter (fun m => !(is_system m)) = ns := by
        rw [List.filter_eq_self]
        intro m hm
        simp [hns m hm]
      rw [hn1, hn2]
      rfl

/-- Witness for C2: one system message followed by 20 user messages yields
a 7-message snapshot. -/
theorem snapshot_keeps_system_and_last_six_witness :
    is_system (⟨"system", "p"⟩ : Message) = true ∧
      (∀ m ∈ ([] ++ List.replicate 20 (⟨"user", "u"⟩ : Message)), is_system m = false) ∧
      (trim_messages_for_tokens
          ([] ++ ⟨"system", "p"⟩ :: List.replicate 20 (⟨"user", "u"⟩ : Message)) 6).length = 7 :=
  ⟨by decide, by decide,
   (snapshot_keeps_system_and_last_six [] ⟨"system", "p"⟩
       (List.replicate 20 ⟨"user", "u"⟩) (by decide) (by decide)).2.2.1 (by decide)⟩

/-- C9: the trimming function collects every message whose role is
"system" — all of them, from any position, in order — and places them
before the kept non-system tail; on a store whose system message is not at
index 0 the output order therefore differs from the input order. -/
theorem trim_collects_all_system_messages :
    (∀ msgs : List Message,
        (trim_messages_for_tokens msgs 6).filter is_system = msgs.filter is_system) ∧
      (∀ msgs : List Message, ∃ B : List Message,
        trim_messages_for_tokens msgs 6 = msgs.filter is_system ++ B ∧
          ∀ m ∈ B, is_system m = false) ∧
      trim_messages_for_tokens [⟨"user", "hi"⟩, ⟨"system", "p"⟩] 6 =
          [⟨"system", "p"⟩, ⟨"user", "hi"⟩] ∧
      ([⟨"system", "p"⟩, ⟨"user", "hi"⟩] : List Message) ≠
        [⟨"user", "hi"⟩, ⟨"system", "p"⟩] := by
  have hdropPart : ∀ (msgs : List Message) (k : Nat),
      ∀ m ∈ (msgs.filter (fun m => !(is_system m))).drop k, is_system m = false := by
    intro msgs k m hm
    have hmem := List.drop_subset _ _ hm
    have := (List.mem_filter.mp hmem).2
    simpa using this
  refine ⟨?_, ?_, by decide, by decide⟩
  · intro msgs
    by_cases h0 : msgs = []
    · subst h0
      rfl
    · rw [trim_eq_of_ne_nil _ 6 h0 (by decide), List.filter_append]
      have hself : (msgs.filter is_system).filter is_system = msgs.filter is_system := by
        rw [List.filter_eq_self]
        intro m hm
        exact (List.mem_filter.mp hm).2
      have hnil : ((msgs.filter (fun m => !(is_system m))).drop
          ((msgs.filter (fun m => !(is_system m))).length - 6)).filter is_system = [] := by
        rw [List.filter_eq_nil_iff]
        intro m hm
        simp [hdropPart msgs _ m hm]
      rw [hself, hnil, List.append_nil]
  · intro msgs
    by_cases h0 : msgs = []
    · subst h0
      exact ⟨[], rfl, by simp⟩
    · refine ⟨(msgs.filter (fun m => !(is_system m))).drop
          ((msgs.filter (fun m => !(is_system m))).length - 6), ?_, ?_⟩
      · exact trim_eq_of_ne_nil _ 6 h0 (by decide)
      · exact hdropPart msgs _

/-- C3: on a non-crisis turn, when no provider client could be constructed
the router appends the fixed "AI unavailable" message (0 provider calls),
and when the provider call raises it appends the fixed apology (1 call);
`get_ai_response` is total, so neither failure propagates and the session
continues with the appended store. -/
theorem provider_failure_degrades_to_fixed_message (cfg : AppConfig)
    (store : List Message) (text : String) (complete : Client)
    (hc : contains_crisis_keywords (some text) = false) (hne : text ≠ "")
    (hraise : complete (trim_messages_for_tokens (store ++ [⟨"user", text⟩]) 6) = none) :
    handle_turn cfg none store text =
        (store ++ [⟨"user", text⟩,
          ⟨"assistant",
           "AI unavailable: no OpenAI API key configured. Provide one in the sidebar or set it as a secret."⟩],
         0) ∧
      handle_turn cfg (some complete) store text =
        (store ++ [⟨"user", text⟩,
          ⟨"assistant", "I\x27m having trouble responding right now. Please try again later."⟩],
         1) := by
  have hne2 : (text == "") = false := by
    cases hb : text == ""
    · rfl
    · rw [beq_iff_eq] at hb
      exact absurd hb hne
  constructor
  · simp [handle_turn, hne2, hc, get_ai_response]
  · simp [handle_turn, hne2, hc, get_ai_response, hraise]

/-- Witness for C3: input "hello", empty store, a client whose call
raises. -/
theorem provider_failure_degrades_to_fixed_message_witness :
    contains_crisis_keywords (some "hello") = false ∧
      ("hello" : String) ≠ "" ∧
      handle_turn default_app_config none [] "hello" =
        ([⟨"user", "hello"⟩,
          ⟨"assistant",
           "AI unavailable: no OpenAI API key configured. Provide one in the sidebar or set it as a secret."⟩],
         0) ∧
      handle_turn default_app_config (some (fun _ => none)) [] "hello" =
        ([⟨"user", "hello"⟩,
          ⟨"assistant", "I\x27m having trouble responding right now. Please try again later."⟩],
         1) := by
  have h := provider_failure_degrades_to_fixed_message default_app_config [] "hello"
    (fun _ => none) (by decide) (by decide) rfl
  exact ⟨by decide, by decide, h.1, h.2⟩

/-- C4 (amended): for every prior store whose first system message is the
original configured one, the "Clear conversation" action yields exactly
that system message followed by one fresh assistant greeting. -/
theorem clear_preserves_original_system_message (cfg : AppConfig)
    (store : List Message)
    (h : store.find? is_system = some ⟨"system", system_prompt cfg⟩) :
    clear_conversation cfg store =
      [⟨"system", system_prompt cfg⟩, cleared_greeting cfg] := by
  simp [clear_conversation, h]

/-- Witness for C4 at the freshly initialized store. -/
theorem clear_preserves_original_system_message_witness :
    (initial_messages default_app_config).find? is_system =
        some ⟨"system", system_prompt default_app_config⟩ ∧
      clear_conversation default_app_config (initial_messages default_app_config) =
        [⟨"system", system_prompt default_app_config⟩,
         cleared_greeting default_app_config] :=
  ⟨rfl,
   clear_preserves_original_system_message default_app_config
     (initial_messages default_app_config) rfl⟩

/-- C4 counterexample: on a prior store with no system message (here the
empty store) the cleared store's first message has role "assistant", not
"system" — the claim fails for arbitrary prior store contents. -/
theorem clear_without_system_counterexample :
    (clear_conversation default_app_config []).map Message.role = ["assistant"] ∧
      ("assistant" : String) ≠ "system" := by
  decide

/-- C5 (amended): on a non-crisis turn whose provider call succeeds with a
response carrying a nonempty text `t` in `choices[0].message.content`, the
turn appends exactly two messages — the user input verbatim, then an
assistant message equal to `t` — with one provider call. -/
theorem provider_success_appends_exact_text (cfg : AppConfig)
    (store : List Message) (text : String) (complete : Client) (resp : Resp)
    (choice : Choice) (rest : List Choice) (t : String)
    (hc : contains_crisis_keywords (some text) = false) (hne : text ≠ "")
    (hcall : complete (trim_messages_for_tokens (store ++ [⟨"user", text⟩]) 6) = some resp)
    (hch : resp.choices = choice :: rest)
    (hcontent : choice.message_content = some t) (ht : t ≠ "") :
    handle_turn cfg (some complete) store text =
      (store ++ [⟨"user", text⟩, ⟨"assistant", t⟩], 1) := by
  have hne2 : (text == "") = false := by
    cases hb : text == ""
    · rfl
    · rw [beq_iff_eq] at hb
      exact absurd hb hne
  have htb : (t == "") = false := by
    cases hb : t == ""
    · rfl
    · rw [beq_iff_eq] at hb
      exact absurd hb ht
  have hex : extract_text resp = t := by
    simp [extract_text, hch, hcontent, truthy, htb]
  simp [handle_turn, hne2, hc, get_ai_response, hcall, hex]

/-- Witness for C5 at the spec's scenario: input "I feel anxious about
work", stubbed provider text "Try deep breathing.". -/
theorem provider_success_appends_exact_text_witness :
    contains_crisis_keywords (some "I feel anxious about work") = false ∧
      handle_turn default_app_config
          (some (fun _ => some ⟨[⟨some "Try deep breathing.", none⟩], "r"⟩)) []
          "I feel anxious about work" =
        ([⟨"user", "I feel anxious about work"⟩,
          ⟨"assistant", "Try deep breathing."⟩], 1) :=
  ⟨by decide,
   provider_success_appends_exact_text default_app_config [] "I feel anxious about work"
     (fun _ => some ⟨[⟨some "Try deep breathing.", none⟩], "r"⟩)
     ⟨[⟨some "Try deep breathing.", none⟩], "r"⟩
     ⟨some "Try deep breathing.", none⟩ [] "Try deep breathing."
     (by decide) (by decide) rfl rfl rfl (by decide)⟩

/-- C5 counterexample: when the provider succeeds but returns the empty
string as `choices[0].message.content`, the code appends `str(resp)` (the
truthiness check skips empty text), so the assistant message does not equal
the returned text. -/
theorem empty_provider_text_counterexample :
    (handle_turn default_app_config
        (some (fun _ =>
          some ⟨[⟨some "", none⟩], "ChatCompletion(id=chatcmpl-1)"⟩)) []
        "hello").1 =
        [⟨"user", "hello"⟩, ⟨"assistant", "ChatCompletion(id=chatcmpl-1)"⟩] ∧
      ("ChatCompletion(id=chatcmpl-1)" : String) ≠ "" ∧
      (handle_turn default_app_config
        (some (fun _ =>
          some ⟨[⟨some "", none⟩], "ChatCompletion(id=chatcmpl-1)"⟩)) []
        "hello").1 ≠ [⟨"user", "hello"⟩, ⟨"assistant", ""⟩] := by
  decide
